import Mathlib

/-!
Verification of the scheduled-backup program in `app.py`.

The development shallowly embeds the program's history store, timestamp
handling, due-date policy, archiver and backup orchestrator as executable
Lean functions, and proves the specified properties about them.

Conventions of the embedding:
* The SQLite table `backups` is a list of `BackupRecord` in insertion order
  (ids ascending), so `ORDER BY id DESC LIMIT 1` selects the last list
  element among the filtered rows.
* Operations that the source wraps in `try/except` are modelled with an
  explicit `Except`-valued body plus a catching wrapper, or with a `Bool`
  environment flag standing for whether the external effect succeeded.
* Wall-clock instants are modelled at one-second resolution as seconds
  since the proleptic-Gregorian day 0 (the same epoch CPython's
  `datetime.toordinal` uses); `timedelta.days` of a difference is floor
  division by 86400.
-/

/-- One row of the `backups` table (columns `timestamp`, `backup_name`,
`status`, `message`; the `id` column is the list position). -/
structure BackupRecord where
  timestamp : String
  backup_name : String
  status : String
  message : String
deriving DecidableEq, Repr

/-- A `datetime.datetime` value as produced by
`datetime.strptime(s, "%Y-%m-%d %H:%M:%S")` (microseconds are always 0). -/
structure PyDateTime where
  year : Nat
  month : Nat
  day : Nat
  hour : Nat
  minute : Nat
  second : Nat
deriving DecidableEq, Repr

/-! ### Model of `datetime.strptime(s, "%Y-%m-%d %H:%M:%S")`

CPython's `_strptime` compiles the format to the regex
`(?P<Y>\d\d\d\d)-(?P<m>1[0-2]|0[1-9]|[1-9])-(?P<d>3[01]|[12]\d|0[1-9]|[1-9])\s+(?P<H>2[0-3]|[0-1]\d|\d):(?P<M>[0-5]\d|\d):(?P<S>[0-5]\d|\d)`,
requires the match to consume the entire string, and then builds
`datetime(Y, m, d, H, M, S)`, which additionally validates the day against
the month length (raising `ValueError`, which the caller catches).
Each 1-or-2-digit field here is followed by a non-digit literal (or the end
of the string), so the regex's ordered alternation never needs to backtrack
from a 2-digit reading into an overall success with a 1-digit reading; the
greedy-with-fallback parser below is therefore extensionally equivalent. -/

def digitVal (c : Char) : Nat := c.toNat - 48

/-- Exactly four digits (the `%Y` field). -/
def parse4 : List Char → Option (Nat × List Char)
  | a :: b :: c :: d :: rest =>
    if a.isDigit && b.isDigit && c.isDigit && d.isDigit then
      some (digitVal a * 1000 + digitVal b * 100 + digitVal c * 10 + digitVal d, rest)
    else none
  | _ => none

/-- A 1-or-2-digit field: a 2-digit reading is taken when its value lies in
`[lo2, hi2]`, otherwise a 1-digit reading when its value lies in `[lo1, hi1]`. -/
def parse21 (lo2 hi2 lo1 hi1 : Nat) : List Char → Option (Nat × List Char)
  | a :: b :: rest =>
    if a.isDigit then
      if b.isDigit then
        let v := digitVal a * 10 + digitVal b
        if lo2 ≤ v ∧ v ≤ hi2 then some (v, rest)
        else if lo1 ≤ digitVal a ∧ digitVal a ≤ hi1 then some (digitVal a, b :: rest)
        else none
      else if lo1 ≤ digitVal a ∧ digitVal a ≤ hi1 then some (digitVal a, b :: rest)
      else none
    else none
  | [a] =>
    if a.isDigit ∧ lo1 ≤ digitVal a ∧ digitVal a ≤ hi1 then some (digitVal a, []) else none
  | [] => none

/-- A literal character of the format string. -/
def parseLit (c : Char) : List Char → Option (List Char)
  | a :: rest => if a = c then some rest else none
  | [] => none

/-- One-or-more whitespace characters (the format's space becomes `\s+`). -/
def parseWs : List Char → Option (List Char)
  | a :: rest =>
    if a.isWhitespace then some (rest.dropWhile Char.isWhitespace) else none
  | [] => none

def isLeapYear (y : Nat) : Bool := (y % 4 == 0 && y % 100 != 0) || (y % 400 == 0)

def daysInMonth (y m : Nat) : Nat :=
  if m = 2 then (if isLeapYear y then 29 else 28)
  else if m = 4 ∨ m = 6 ∨ m = 9 ∨ m = 11 then 30
  else 31

/-- Model of `datetime.strptime(s, "%Y-%m-%d %H:%M:%S")`, `none` for `ValueError`. -/
def strptimeYmdHMS (s : String) : Option PyDateTime := do
  let r0 := s.toList
  let (y, r1) ← parse4 r0
  let r2 ← parseLit '-' r1
  let (mo, r3) ← parse21 1 12 1 9 r2
  let r4 ← parseLit '-' r3
  let (d, r5) ← parse21 1 31 1 9 r4
  let r6 ← parseWs r5
  let (h, r7) ← parse21 0 23 0 9 r6
  let r8 ← parseLit ':' r7
  let (mi, r9) ← parse21 0 59 0 9 r8
  let r10 ← parseLit ':' r9
  let (sec, r11) ← parse21 0 59 0 9 r10
  -- the whole string must be consumed, and `datetime(...)` validates
  -- `1 <= year` and the day against the month length
  if r11 = [] ∧ 1 ≤ y ∧ d ≤ daysInMonth y mo then
    some ⟨y, mo, d, h, mi, sec⟩
  else none

/-! ### Conversion of a datetime to seconds (for `datetime` subtraction)

CPython subtracts two datetimes by comparing `toordinal()*86400 + seconds
within the day` (plus microseconds, which are 0 for parsed timestamps and
irrelevant at the whole-second instants the claims quantify over). -/

/-- Days of all years strictly before year `y` (CPython `_days_before_year`). -/
def daysBeforeYear (y : Nat) : Nat :=
  (y - 1) * 365 + (y - 1) / 4 - (y - 1) / 100 + (y - 1) / 400

/-- Days of all months of year `y` strictly before month `m`. -/
def daysBeforeMonth (y : Nat) : Nat → Nat
  | 0 => 0
  | 1 => 0
  | n + 1 => daysBeforeMonth y n + daysInMonth y n

/-- CPython `datetime.toordinal()`. -/
def toOrdinal (dt : PyDateTime) : Nat :=
  daysBeforeYear dt.year + daysBeforeMonth dt.year dt.month + dt.day

/-- The instant of a datetime, in seconds. -/
def dtToSeconds (dt : PyDateTime) : Int :=
  (toOrdinal dt : Int) * 86400 + dt.hour * 3600 + dt.minute * 60 + dt.second

/-! ### History store -/

/-- Body of `register_backup` (lines 77-94): the SQLite `INSERT`. `storeOk`
stands for whether connecting and inserting succeeds; on failure the
exception carries a message. -/
def register_backup_body (storeOk : Bool) (rs : List BackupRecord)
    (stamp backup_name status message : String) : Except String (List BackupRecord) :=
  if storeOk then .ok (rs ++ [⟨stamp, backup_name, status, message⟩])
  else .error "unable to open database file"

/-- Model of `register_backup` (lines 77-94): the `except` clause logs the storage
error and swallows it, so the function always returns normally; on storage
failure the write is dropped. -/
def register_backup (storeOk : Bool) (rs : List BackupRecord)
    (stamp backup_name status message : String) : List BackupRecord :=
  match register_backup_body storeOk rs stamp backup_name status message with
  | .ok rs2 => rs2
  | .error _ => rs

/-- Model of `get_last_successful_backup` (lines 96-116). `dbOk` stands for whether
the SQLite connection and query succeed. The query
`SELECT timestamp FROM backups WHERE status = "Éxito" ORDER BY id DESC LIMIT 1`
returns the timestamp of the last-inserted row with status "Éxito"; the
result is parsed with `strptime`, and any exception (storage failure or
`ValueError` from parsing) yields `None`. -/
def get_last_successful_backup (dbOk : Bool) (rs : List BackupRecord) : Option PyDateTime :=
  if dbOk then
    match (rs.filter (fun r => r.status == "Éxito")).getLast? with
    | some r => strptimeYmdHMS r.timestamp
    | none => none
  else none

/-! ### Due-date policy -/

/-- Module constant `BACKUP_INTERVAL_DAYS = 3` (line 20). -/
def BACKUP_INTERVAL_DAYS : Int := 3

/-- Model of `is_backup_due` (lines 260-270), with `datetime.datetime.now()` modelled
by `nowSec` (seconds). `delta.days` of a `timedelta` is floor division of
the elapsed seconds by 86400. -/
def is_backup_due (nowSec : Int) (dbOk : Bool) (rs : List BackupRecord) : Bool :=
  match get_last_successful_backup dbOk rs with
  | none => true
  | some dt => decide (BACKUP_INTERVAL_DAYS ≤ (nowSec - dtToSeconds dt).fdiv 86400)

/-! ### Archiver: `compress_directory` (lines 121-139)

The filesystem is modelled as an optional directory tree: `none` stands for
a nonexistent source path (on which `os.walk` yields nothing and reports
nothing, because its internal `scandir` error is swallowed by the default
`onerror=None`). A file carries a `Bool` saying whether `zipf.write`
succeeds on it; the first failing write raises, the `with` block closes the
(partial) archive, and the `except` clause returns `(False, str(e))`. -/

/-- An existing directory: immediate files `(name, readable)` and
subdirectories `(name, subtree)`. -/
inductive FsTree where
  | mk (files : List (String × Bool)) (subdirs : List (String × FsTree))

mutual

/-- All files below a directory in `os.walk` top-down order, as
`(arcname, readable)` with `arcname = os.path.relpath(path, source)`. -/
def walkFiles (pre : String) : FsTree → List (String × Bool)
  | .mk files subdirs =>
    files.map (fun p => (pre ++ p.1, p.2)) ++ walkFilesList pre subdirs

/-- Recursion of `walkFiles` over the subdirectory list. -/
def walkFilesList (pre : String) : List (String × FsTree) → List (String × Bool)
  | [] => []
  | (nm, t) :: rest => walkFiles (pre ++ nm ++ "/") t ++ walkFilesList pre rest
end

/-- The files `os.walk(source)` yields, `[]` when `source` does not exist. -/
def sourceWalkFiles : Option FsTree → List (String × Bool)
  | none => []
  | some t => walkFiles "" t

/-- The write loop of `compress_directory`: archive each walked file in
order; the first unreadable file raises, aborting the loop. Returns the
`(success, message)` pair together with the members of the archive left on
disk. -/
def compressLoop : List (String × Bool) → List String → (Bool × String) × List String
  | [], written => ((true, "Backup comprimido correctamente."), written.reverse)
  | (nm, ok) :: rest, written =>
    if ok then compressLoop rest (nm :: written)
    else ((false, "Permission denied: " ++ nm), written.reverse)

/-- Model of `compress_directory(source, output_zip)`: result pair plus the
member list of the archive left on disk. The `except` clause (lines
138-139) also catches failures of the destination archive itself:
`openErr` is the exception raised by `zipfile.ZipFile(output_zip, 'w')` if
any (no archive is created then), and `closeErr` is the exception raised
while the `with` block closes the archive after all writes succeeded (the
partial file remains); either returns `(False, str(e))`. When a walked
file's write fails, that exception is the one reported. -/
def compress_directory (openErr closeErr : Option String) (src : Option FsTree) :
    (Bool × String) × List String :=
  match openErr with
  | some e => ((false, e), [])
  | none =>
    match compressLoop (sourceWalkFiles src) [] with
    | ((true, msg), members) =>
      match closeErr with
      | some e => ((false, e), members)
      | none => ((true, msg), members)
    | ((false, msg), members) => ((false, msg), members)

/-! ### Backup orchestrator: `perform_backup` (lines 220-255) -/

/-- Split a character list on a separator (the pieces, in order, without
the separator). -/
def splitOnChar (c : Char) : List Char → List (List Char)
  | [] => [[]]
  | a :: rest =>
    if a = c then [] :: splitOnChar c rest
    else match splitOnChar c rest with
      | [] => [[a]]
      | h :: t => (a :: h) :: t

/-- Model of `os.path.basename(os.path.normpath(src))` for a POSIX path without `.`
or `..` components: the last nonempty `/`-separated component. -/
def pathLabel (src : String) : String :=
  ⟨((((splitOnChar '/' src.toList)).filter (fun s => s ≠ [])).getLast?).getD []⟩

/-- The `TypeError` raised by `os.path.normpath(None)` when
`SOURCE_DIRECTORY` is not configured. -/
def noneTypeMessage : String :=
  "expected str, bytes or os.PathLike object, not NoneType"

/-- The environment of one `perform_backup` invocation: the configuration
and the outcomes of the external effects. `compress_directory` (lines
130-139) and `upload_to_drive` (lines 181-215) catch every exception
internally and return an `(ok, message)` pair, so their outcomes are inputs
here; `removeOk` is whether `os.remove(output_path)` succeeds; `storeOk` is
whether the SQLite insert of `register_backup` succeeds; `leftoverArtifact`
is whether a failed compression left a partial archive on disk. -/
structure PipelineEnv where
  sourceDir : Option String
  nowStamp : String
  recordStamp : String
  records0 : List BackupRecord
  compressOk : Bool
  compressMsg : String
  uploadOk : Bool
  uploadMsg : String
  removeOk : Bool
  storeOk : Bool
  leftoverArtifact : Bool

/-- What one `perform_backup` invocation did. -/
structure PipelineTrace where
  /-- final contents of the `backups` table -/
  records : List BackupRecord
  /-- the `(backup_name, status, message)` arguments of each
  `register_backup` call, in order -/
  registerCalls : List (String × String × String)
  /-- number of `upload_to_drive` calls -/
  uploadCalls : Nat
  /-- whether `os.remove(output_path)` was attempted -/
  removeAttempted : Bool
  /-- whether `output_path` exists when `perform_backup` returns -/
  artifactOnDisk : Bool
deriving DecidableEq, Repr

/-- The artifact name `backup_<label>_<stamp>.zip` (line 230). -/
def backupName (src stamp : String) : String :=
  "backup_" ++ pathLabel src ++ "_" ++ stamp ++ ".zip"

/-- Body of the `try` block of `perform_backup` (lines 227-252). The only
statement in it that can raise — every callee catches internally, and the
inner `try` around `os.remove` catches deletion errors — is the artifact
name resolution at line 229, which raises `TypeError` when
`SOURCE_DIRECTORY` is `None`. -/
def perform_backup_body (env : PipelineEnv) : Except String PipelineTrace :=
  match env.sourceDir with
  | none => .error noneTypeMessage
  | some src =>
    let nm := backupName src env.nowStamp
    if env.compressOk = false then
      -- archive failed: record Failure with the archiver's message, return
      .ok { records := register_backup env.storeOk env.records0
                          env.recordStamp nm "Fallo" env.compressMsg
            registerCalls := [(nm, "Fallo", env.compressMsg)]
            uploadCalls := 0
            removeAttempted := false
            artifactOnDisk := env.leftoverArtifact }
    else if env.uploadOk then
      -- upload succeeded: record Success, then best-effort delete
      .ok { records := register_backup env.storeOk env.records0
                          env.recordStamp nm "Éxito" (env.compressMsg ++ " | " ++ env.uploadMsg)
            registerCalls := [(nm, "Éxito", env.compressMsg ++ " | " ++ env.uploadMsg)]
            uploadCalls := 1
            removeAttempted := true
            artifactOnDisk := !env.removeOk }
    else
      -- upload failed: record Failure, keep the artifact on disk
      .ok { records := register_backup env.storeOk env.records0
                          env.recordStamp nm "Fallo" (env.compressMsg ++ " | " ++ env.uploadMsg)
            registerCalls := [(nm, "Fallo", env.compressMsg ++ " | " ++ env.uploadMsg)]
            uploadCalls := 1
            removeAttempted := false
            artifactOnDisk := true }

/-- Model of `perform_backup` (lines 220-255): the top-level `except` catches any
error of the body and records a Failure with artifact name `"N/A"`, so the
function always returns normally to the scheduler. -/
def perform_backup (env : PipelineEnv) : PipelineTrace :=
  match perform_backup_body env with
  | .ok t => t
  | .error e =>
    { records := register_backup env.storeOk env.records0 env.recordStamp "N/A" "Fallo" e
      registerCalls := [("N/A", "Fallo", e)]
      uploadCalls := 0
      removeAttempted := false
      artifactOnDisk := false }

/-! ### Latest-file archiver strategy (spec-modelled)

The latest-file strategy belongs to the repository's near-duplicate variant
program, which is not present under `src/`; only `app.py` is. The
definitions below are therefore modelled from the spec (§4.2). -/

/-- An entry directly under the source directory, with its kind and
modification time. -/
structure DirEntry where
  name : String
  isRegularFile : Bool
  mtime : Nat
deriving DecidableEq, Repr

/-- Outcome of the latest-file strategy. -/
inductive LatestResult where
  | noEligibleFile
  | ok (member : String)
deriving DecidableEq, Repr

/-- Modelled from the spec: the selection step of
`compressLatestFile(sourceDir, destZip)` — "selects the single file
directly under `sourceDir` with the greatest modification time". Scans the
eligible files keeping the candidate of greatest `mtime` (first of the
maxima on ties, which the spec leaves open). -/
def pickLatest : Option DirEntry → List DirEntry → Option DirEntry
  | acc, [] => acc
  | none, e :: rest => pickLatest (some e) rest
  | some b, e :: rest => pickLatest (some (if b.mtime < e.mtime then e else b)) rest

/-- Modelled from the spec: `compressLatestFile(sourceDir, destZip)` —
directories and non-regular files are ignored; with zero eligible files it
signals `NoEligibleFile` and performs no write; otherwise it archives the
selected file. Returns the outcome and the archive's member list (empty
when nothing was written). -/
def compressLatestFile (entries : List DirEntry) : LatestResult × List String :=
  match pickLatest none (entries.filter (fun e => e.isRegularFile)) with
  | none => (.noEligibleFile, [])
  | some e => (.ok e.name, [e.name])

/-! ### Shared demo inputs for concrete instantiations -/

def demoSuccessRecord : BackupRecord :=
  ⟨"2024-01-01 00:00:00", "backup_docs_20240101_000000.zip", "Éxito", "ok"⟩

def demoFailureRecord : BackupRecord :=
  ⟨"2024-01-02 00:00:00", "backup_docs_20240102_000000.zip", "Fallo", "err"⟩

def demoBadStampRecord : BackupRecord :=
  ⟨"not-a-date", "backup_docs.zip", "Éxito", "ok"⟩

def demoDT : PyDateTime := ⟨2024, 1, 1, 0, 0, 0⟩

/-! ### Lemmas on the history store -/

/-- Filtering the store for successes around a success `r` whose suffix has
no further success ends in exactly `r`. -/
theorem filter_success_split (p s : List BackupRecord) (r : BackupRecord)
    (hr : r.status = "Éxito") (hs : ∀ x ∈ s, x.status ≠ "Éxito") :
    (p ++ r :: s).filter (fun x => x.status == "Éxito") =
      p.filter (fun x => x.status == "Éxito") ++ [r] := by
  rw [List.filter_append, List.filter_cons]
  have hfs : s.filter (fun x => x.status == "Éxito") = [] := by
    rw [List.filter_eq_nil_iff]
    intro a ha
    simpa using hs a ha
  simp [hr, hfs]

/-- The last-success query returns the parse of the timestamp of the
last-inserted success record. -/
theorem get_last_eq_strptime (p s : List BackupRecord) (r : BackupRecord)
    (hr : r.status = "Éxito") (hs : ∀ x ∈ s, x.status ≠ "Éxito") :
    get_last_successful_backup true (p ++ r :: s) = strptimeYmdHMS r.timestamp := by
  unfold get_last_successful_backup
  rw [if_pos rfl, filter_success_split p s r hr hs, List.getLast?_concat]

/-- C1: for every sequence of recorded attempts,
`get_last_successful_backup` returns the timestamp of the most recently
inserted record with status Success (Failure records inserted after it are
ignored); it returns `None` when no Success record exists, and `None` when
the storage read fails. -/
theorem lastSuccess_query_correct :
    (∀ (p s : List BackupRecord) (r : BackupRecord) (dt : PyDateTime),
        r.status = "Éxito" → (∀ x ∈ s, x.status ≠ "Éxito") →
        strptimeYmdHMS r.timestamp = some dt →
        get_last_successful_backup true (p ++ r :: s) = some dt)
    ∧ (∀ rs : List BackupRecord, (∀ x ∈ rs, x.status ≠ "Éxito") →
        get_last_successful_backup true rs = none)
    ∧ (∀ rs : List BackupRecord, get_last_successful_backup false rs = none) := by
  refine ⟨?_, ?_, ?_⟩
  · intro p s r dt hr hs hparse
    rw [get_last_eq_strptime p s r hr hs, hparse]
  · intro rs hrs
    unfold get_last_successful_backup
    have hfs : rs.filter (fun x => x.status == "Éxito") = [] := by
      rw [List.filter_eq_nil_iff]
      intro a ha
      simpa using hrs a ha
    simp [hfs]
  · intro rs
    rfl

/-- Closed instance of `lastSuccess_query_correct`: a store holding one
success followed by one failure, a store with only a failure, and a failed
storage read. -/
theorem lastSuccess_query_correct_witness :
    get_last_successful_backup true [demoSuccessRecord, demoFailureRecord] = some demoDT
    ∧ get_last_successful_backup true [demoFailureRecord] = none
    ∧ get_last_successful_backup false [demoSuccessRecord] = none := by
  refine ⟨?_, ?_, ?_⟩
  · exact lastSuccess_query_correct.1 [] [demoFailureRecord] demoSuccessRecord demoDT
      (by decide) (by decide) (by decide)
  · exact lastSuccess_query_correct.2.1 [demoFailureRecord] (by decide)
  · exact lastSuccess_query_correct.2.2 [demoSuccessRecord]

/-- C9: when the most recently inserted Success record's timestamp text
does not parse in the fixed format, `get_last_successful_backup` returns
`None`, so the next due-check evaluates "due". -/
theorem malformed_timestamp_fails_open :
    ∀ (p s : List BackupRecord) (r : BackupRecord) (nowSec : Int),
      r.status = "Éxito" → (∀ x ∈ s, x.status ≠ "Éxito") →
      strptimeYmdHMS r.timestamp = none →
      get_last_successful_backup true (p ++ r :: s) = none
      ∧ is_backup_due nowSec true (p ++ r :: s) = true := by
  intro p s r nowSec hr hs hparse
  have h : get_last_successful_backup true (p ++ r :: s) = none := by
    rw [get_last_eq_strptime p s r hr hs, hparse]
  exact ⟨h, by unfold is_backup_due; rw [h]⟩

/-- Closed instance of `malformed_timestamp_fails_open`: a success record
whose stored timestamp is `"not-a-date"`. -/
theorem malformed_timestamp_fails_open_witness :
    get_last_successful_backup true [demoBadStampRecord] = none
    ∧ is_backup_due 0 true [demoBadStampRecord] = true :=
  malformed_timestamp_fails_open [] [] demoBadStampRecord 0
    (by decide) (by decide) (by decide)

/-- C2: `is_backup_due` is true iff no prior success exists or the elapsed
time to now, truncated to whole days, is at least `BACKUP_INTERVAL_DAYS`;
at exactly the interval it is due (inclusive boundary) and at one day less
it is not due. -/
theorem backup_due_iff :
    (∀ (nowSec : Int) (dbOk : Bool) (rs : List BackupRecord),
        get_last_successful_backup dbOk rs = none →
        is_backup_due nowSec dbOk rs = true)
    ∧ (∀ (nowSec : Int) (dbOk : Bool) (rs : List BackupRecord) (dt : PyDateTime),
        get_last_successful_backup dbOk rs = some dt →
        (is_backup_due nowSec dbOk rs = true ↔
          BACKUP_INTERVAL_DAYS ≤ (nowSec - dtToSeconds dt).fdiv 86400))
    ∧ (∀ (dbOk : Bool) (rs : List BackupRecord) (dt : PyDateTime),
        get_last_successful_backup dbOk rs = some dt →
        is_backup_due (dtToSeconds dt + BACKUP_INTERVAL_DAYS * 86400) dbOk rs = true
        ∧ is_backup_due (dtToSeconds dt + (BACKUP_INTERVAL_DAYS - 1) * 86400) dbOk rs = false) := by
  have hiff : ∀ (nowSec : Int) (dbOk : Bool) (rs : List BackupRecord) (dt : PyDateTime),
      get_last_successful_backup dbOk rs = some dt →
      (is_backup_due nowSec dbOk rs = true ↔
        BACKUP_INTERVAL_DAYS ≤ (nowSec - dtToSeconds dt).fdiv 86400) := by
    intro nowSec dbOk rs dt h
    unfold is_backup_due
    rw [h]
    exact decide_eq_true_iff
  refine ⟨?_, hiff, ?_⟩
  · intro nowSec dbOk rs h
    unfold is_backup_due
    rw [h]
  · intro dbOk rs dt h
    constructor
    · rw [hiff _ dbOk rs dt h]
      have he : dtToSeconds dt + BACKUP_INTERVAL_DAYS * 86400 - dtToSeconds dt =
          BACKUP_INTERVAL_DAYS * 86400 := by ring
      rw [he]
      decide
    · rw [Bool.eq_false_iff, Ne, hiff _ dbOk rs dt h]
      have he : dtToSeconds dt + (BACKUP_INTERVAL_DAYS - 1) * 86400 - dtToSeconds dt =
          (BACKUP_INTERVAL_DAYS - 1) * 86400 := by ring
      rw [he]
      decide

/-- Closed instance of `backup_due_iff`: an empty store is always due; with
one success at `2024-01-01 00:00:00`, three days later is due and two days
later is not. -/
theorem backup_due_iff_witness :
    is_backup_due 0 true [] = true
    ∧ (is_backup_due (dtToSeconds demoDT + 200000) true [demoSuccessRecord] = true ↔
        BACKUP_INTERVAL_DAYS ≤ ((dtToSeconds demoDT + 200000) - dtToSeconds demoDT).fdiv 86400)
    ∧ is_backup_due (dtToSeconds demoDT + BACKUP_INTERVAL_DAYS * 86400) true [demoSuccessRecord] = true
    ∧ is_backup_due (dtToSeconds demoDT + (BACKUP_INTERVAL_DAYS - 1) * 86400) true [demoSuccessRecord] = false := by
  have hsome : get_last_successful_backup true [demoSuccessRecord] = some demoDT := by decide
  refine ⟨?_, ?_, ?_, ?_⟩
  · exact backup_due_iff.1 0 true [] rfl
  · exact backup_due_iff.2.1 (dtToSeconds demoDT + 200000) true [demoSuccessRecord] demoDT hsome
  · exact (backup_due_iff.2.2 true [demoSuccessRecord] demoDT hsome).1
  · exact (backup_due_iff.2.2 true [demoSuccessRecord] demoDT hsome).2

/-! ### Orchestrator theorems -/

/-- A fully successful run, except that the local deletion fails. -/
def removeFailEnv : PipelineEnv :=
  { sourceDir := some "/home/user/docs"
    nowStamp := "20240104_130000"
    recordStamp := "2024-01-04 13:00:05"
    records0 := [demoSuccessRecord]
    compressOk := true
    compressMsg := "Backup comprimido correctamente."
    uploadOk := true
    uploadMsg := "Backup subido a Google Drive correctamente."
    removeOk := false
    storeOk := true
    leftoverArtifact := false }

/-- A fully successful run. -/
def allOkEnv : PipelineEnv :=
  { sourceDir := some "/home/user/docs"
    nowStamp := "20240104_130000"
    recordStamp := "2024-01-04 13:00:05"
    records0 := [demoSuccessRecord]
    compressOk := true
    compressMsg := "Backup comprimido correctamente."
    uploadOk := true
    uploadMsg := "Backup subido a Google Drive correctamente."
    removeOk := true
    storeOk := true
    leftoverArtifact := false }

/-- A run whose compression fails. -/
def archiveFailEnv : PipelineEnv :=
  { sourceDir := some "/home/user/docs"
    nowStamp := "20240104_130000"
    recordStamp := "2024-01-04 13:00:05"
    records0 := [demoSuccessRecord]
    compressOk := false
    compressMsg := "disk full"
    uploadOk := true
    uploadMsg := "Backup subido a Google Drive correctamente."
    removeOk := true
    storeOk := true
    leftoverArtifact := true }

/-- A run whose upload fails. -/
def uploadFailEnv : PipelineEnv :=
  { sourceDir := some "/home/user/docs"
    nowStamp := "20240104_130000"
    recordStamp := "2024-01-04 13:00:05"
    records0 := [demoSuccessRecord]
    compressOk := true
    compressMsg := "Backup comprimido correctamente."
    uploadOk := false
    uploadMsg := "network error"
    removeOk := true
    storeOk := true
    leftoverArtifact := false }

/-- A run with the source path unconfigured
(`SOURCE_DIRECTORY` environment variable missing). -/
def noSourceEnv : PipelineEnv :=
  { sourceDir := none
    nowStamp := "20240104_130000"
    recordStamp := "2024-01-04 13:00:05"
    records0 := [demoSuccessRecord]
    compressOk := true
    compressMsg := "Backup comprimido correctamente."
    uploadOk := true
    uploadMsg := "Backup subido a Google Drive correctamente."
    removeOk := true
    storeOk := true
    leftoverArtifact := false }

/-- C3: when the archive stage fails, exactly one Failure record is
inserted carrying the archiver's message, the uploader is never called, and
`perform_backup` returns without attempting upload or deletion. -/
theorem archive_failure_no_upload :
    ∀ (env : PipelineEnv) (src : String),
      env.sourceDir = some src → env.compressOk = false →
      (perform_backup env).registerCalls =
          [(backupName src env.nowStamp, "Fallo", env.compressMsg)]
      ∧ (perform_backup env).uploadCalls = 0
      ∧ (perform_backup env).removeAttempted = false
      ∧ (env.storeOk = true → (perform_backup env).records =
          env.records0 ++ [⟨env.recordStamp, backupName src env.nowStamp, "Fallo", env.compressMsg⟩])
      ∧ (env.storeOk = false → (perform_backup env).records = env.records0) := by
  intro env src hsrc hc
  unfold perform_backup perform_backup_body
  rw [hsrc]
  simp only [hc, if_pos rfl]
  refine ⟨rfl, rfl, rfl, ?_, ?_⟩
  · intro hst
    simp [register_backup, register_backup_body, hst]
  · intro hst
    simp [register_backup, register_backup_body, hst]

/-- Closed instance of `archive_failure_no_upload`: a run whose compression
fails with message `"disk full"`. -/
theorem archive_failure_no_upload_witness :
    (perform_backup archiveFailEnv).registerCalls =
        [("backup_docs_20240104_130000.zip", "Fallo", "disk full")]
    ∧ (perform_backup archiveFailEnv).uploadCalls = 0
    ∧ (perform_backup archiveFailEnv).records =
        [demoSuccessRecord,
         ⟨"2024-01-04 13:00:05", "backup_docs_20240104_130000.zip", "Fallo", "disk full"⟩] := by
  have h := archive_failure_no_upload archiveFailEnv "/home/user/docs" rfl rfl
  exact ⟨h.1.trans (by decide), h.2.1, (h.2.2.2.1 rfl).trans (by decide)⟩

/-- C4: when archiving and upload both succeed, exactly one Success record
is inserted whose message combines the archive and upload messages, the
local artifact is then deleted best-effort, and a deletion failure does not
change the recorded Success (the records equation holds for every value of
`removeOk`). -/
theorem upload_success_record_and_cleanup :
    ∀ (env : PipelineEnv) (src : String),
      env.sourceDir = some src → env.compressOk = true → env.uploadOk = true →
      (perform_backup env).registerCalls =
          [(backupName src env.nowStamp, "Éxito", env.compressMsg ++ " | " ++ env.uploadMsg)]
      ∧ (env.storeOk = true → (perform_backup env).records =
          env.records0 ++ [⟨env.recordStamp, backupName src env.nowStamp, "Éxito",
            env.compressMsg ++ " | " ++ env.uploadMsg⟩])
      ∧ (perform_backup env).removeAttempted = true
      ∧ (perform_backup env).artifactOnDisk = !env.removeOk
      ∧ (perform_backup env).uploadCalls = 1 := by
  intro env src hsrc hc hu
  unfold perform_backup perform_backup_body
  rw [hsrc]
  simp only [hc, hu]
  rw [if_pos trivial]
  refine ⟨rfl, ?_, rfl, rfl, rfl⟩
  intro hst
  simp [register_backup, register_backup_body, hst]

/-- Closed instance of `upload_success_record_and_cleanup`, with the
deletion failing (`removeOk := false`): the Success record is still
recorded, and the artifact remains on disk; with the deletion succeeding
the artifact is absent. -/
theorem upload_success_record_and_cleanup_witness :
    (perform_backup removeFailEnv).registerCalls =
        [("backup_docs_20240104_130000.zip", "Éxito",
          "Backup comprimido correctamente. | Backup subido a Google Drive correctamente.")]
    ∧ (perform_backup removeFailEnv).records =
        [demoSuccessRecord,
         ⟨"2024-01-04 13:00:05", "backup_docs_20240104_130000.zip", "Éxito",
          "Backup comprimido correctamente. | Backup subido a Google Drive correctamente."⟩]
    ∧ (perform_backup removeFailEnv).artifactOnDisk = true
    ∧ (perform_backup allOkEnv).artifactOnDisk = false := by
  have h1 := upload_success_record_and_cleanup removeFailEnv "/home/user/docs" rfl rfl rfl
  have h2 := upload_success_record_and_cleanup allOkEnv "/home/user/docs" rfl rfl rfl
  exact ⟨h1.1.trans (by decide), (h1.2.1 rfl).trans (by decide),
    h1.2.2.2.1.trans (by decide), h2.2.2.2.1.trans (by decide)⟩

/-- C5: when archiving succeeds but the upload fails, exactly one Failure
record is inserted whose message combines the archive and upload messages,
and the local artifact is not deleted — it still exists on disk when
`perform_backup` returns. -/
theorem upload_failure_keeps_artifact :
    ∀ (env : PipelineEnv) (src : String),
      env.sourceDir = some src → env.compressOk = true → env.uploadOk = false →
      (perform_backup env).registerCalls =
          [(backupName src env.nowStamp, "Fallo", env.compressMsg ++ " | " ++ env.uploadMsg)]
      ∧ (env.storeOk = true → (perform_backup env).records =
          env.records0 ++ [⟨env.recordStamp, backupName src env.nowStamp, "Fallo",
            env.compressMsg ++ " | " ++ env.uploadMsg⟩])
      ∧ (perform_backup env).removeAttempted = false
      ∧ (perform_backup env).artifactOnDisk = true
      ∧ (perform_backup env).uploadCalls = 1 := by
  intro env src hsrc hc hu
  unfold perform_backup perform_backup_body
  rw [hsrc]
  simp only [hc, hu]
  rw [if_neg (by decide)]
  refine ⟨rfl, ?_, rfl, rfl, rfl⟩
  intro hst
  simp [register_backup, register_backup_body, hst]

/-- Closed instance of `upload_failure_keeps_artifact`: upload fails with
`"network error"`. -/
theorem upload_failure_keeps_artifact_witness :
    (perform_backup uploadFailEnv).registerCalls =
        [("backup_docs_20240104_130000.zip", "Fallo",
          "Backup comprimido correctamente. | network error")]
    ∧ (perform_backup uploadFailEnv).records =
        [demoSuccessRecord,
         ⟨"2024-01-04 13:00:05", "backup_docs_20240104_130000.zip", "Fallo",
          "Backup comprimido correctamente. | network error"⟩]
    ∧ (perform_backup uploadFailEnv).artifactOnDisk = true := by
  have h := upload_failure_keeps_artifact uploadFailEnv "/home/user/docs" rfl rfl rfl
  exact ⟨h.1.trans (by decide), (h.2.1 rfl).trans (by decide), h.2.2.2.1⟩

/-- C6: `perform_backup` never propagates an exception: every error of its
`try` body is caught and recorded as a Failure with artifact name `"N/A"`
(the only raising statement is name resolution, which fails exactly when
the source path is unconfigured); and `register_backup` never raises to its
caller on storage failure — the failed write is swallowed and the store is
left unchanged. -/
theorem pipeline_never_raises :
    (∀ (env : PipelineEnv) (e : String), perform_backup_body env = .error e →
        (perform_backup env).registerCalls = [("N/A", "Fallo", e)]
        ∧ (env.storeOk = true → (perform_backup env).records =
            env.records0 ++ [⟨env.recordStamp, "N/A", "Fallo", e⟩])
        ∧ (env.storeOk = false → (perform_backup env).records = env.records0))
    ∧ (∀ env : PipelineEnv, (∃ e, perform_backup_body env = .error e) ↔ env.sourceDir = none)
    ∧ (∀ (storeOk : Bool) (rs : List BackupRecord) (stamp nm st msg e : String),
        register_backup_body storeOk rs stamp nm st msg = .error e →
        register_backup storeOk rs stamp nm st msg = rs) := by
  refine ⟨?_, ?_, ?_⟩
  · intro env e herr
    unfold perform_backup
    rw [herr]
    refine ⟨rfl, ?_, ?_⟩
    · intro hst
      simp [register_backup, register_backup_body, hst]
    · intro hst
      simp [register_backup, register_backup_body, hst]
  · intro env
    constructor
    · rintro ⟨e, he⟩
      cases hsrc : env.sourceDir with
      | none => rfl
      | some src =>
        exfalso
        unfold perform_backup_body at he
        rw [hsrc] at he
        by_cases hc : env.compressOk = false
        · simp [hc] at he
        · by_cases hu : env.uploadOk
          · simp [hc, hu] at he
          · simp [hc, hu] at he
    · intro hsrc
      exact ⟨noneTypeMessage, by unfold perform_backup_body; rw [hsrc]⟩
  · intro storeOk rs stamp nm st msg e herr
    unfold register_backup
    rw [herr]

/-- Closed instance of `pipeline_never_raises`: an unconfigured source path
makes the body raise; the wrapper records `("N/A", "Fallo", ...)`; a failed
store write is swallowed. -/
theorem pipeline_never_raises_witness :
    (perform_backup noSourceEnv).registerCalls = [("N/A", "Fallo", noneTypeMessage)]
    ∧ (perform_backup noSourceEnv).records =
        [demoSuccessRecord, ⟨"2024-01-04 13:00:05", "N/A", "Fallo", noneTypeMessage⟩]
    ∧ register_backup false [demoSuccessRecord] "2024-01-04 13:00:05" "b" "Fallo" "m" =
        [demoSuccessRecord] := by
  have h := pipeline_never_raises.1 noSourceEnv noneTypeMessage rfl
  exact ⟨h.1, (h.2.1 rfl).trans (by decide),
    pipeline_never_raises.2.2 false [demoSuccessRecord] "2024-01-04 13:00:05" "b" "Fallo" "m"
      "unable to open database file" rfl⟩

/-- C7 is refuted by the code: with the source path unconfigured, the
process does not terminate abnormally at startup — `perform_backup`'s
top-level handler catches the `TypeError` from name resolution, records the
attempt outcome as a Failure named `"N/A"`, and returns normally to the
scheduler loop. Concretely, an attempt outcome IS recorded. -/
theorem missing_source_not_fatal :
    perform_backup noSourceEnv =
      { records := [demoSuccessRecord,
                    ⟨"2024-01-04 13:00:05", "N/A", "Fallo", noneTypeMessage⟩]
        registerCalls := [("N/A", "Fallo", noneTypeMessage)]
        uploadCalls := 0
        removeAttempted := false
        artifactOnDisk := false }
    ∧ (perform_backup noSourceEnv).registerCalls ≠ [] := by
  exact ⟨by decide, by decide⟩

/-- C7 (amended): a missing required source path is not fatal at startup;
the scheduler loop is entered, and on each attempt `perform_backup` catches
the name-resolution `TypeError` and records a Failure with artifact name
`"N/A"`, returning normally. -/
theorem missing_source_caught_each_attempt :
    ∀ env : PipelineEnv, env.sourceDir = none →
      perform_backup env =
        { records := register_backup env.storeOk env.records0 env.recordStamp
                        "N/A" "Fallo" noneTypeMessage
          registerCalls := [("N/A", "Fallo", noneTypeMessage)]
          uploadCalls := 0
          removeAttempted := false
          artifactOnDisk := false } := by
  intro env hsrc
  unfold perform_backup perform_backup_body
  rw [hsrc]

/-- Closed instance of `missing_source_caught_each_attempt`. -/
theorem missing_source_caught_each_attempt_witness :
    perform_backup noSourceEnv =
      { records := register_backup noSourceEnv.storeOk noSourceEnv.records0
                      noSourceEnv.recordStamp "N/A" "Fallo" noneTypeMessage
        registerCalls := [("N/A", "Fallo", noneTypeMessage)]
        uploadCalls := 0
        removeAttempted := false
        artifactOnDisk := false } :=
  missing_source_caught_each_attempt noSourceEnv rfl

/-! ### Latest-file strategy theorems -/

/-- Scanning from accumulator `b` yields an entry of maximal `mtime` among
`b` and the scanned list. -/
theorem pickLatest_acc (l : List DirEntry) :
    ∀ b : DirEntry, ∃ e : DirEntry, pickLatest (some b) l = some e
      ∧ (e = b ∨ e ∈ l) ∧ b.mtime ≤ e.mtime ∧ ∀ x ∈ l, x.mtime ≤ e.mtime := by
  induction l with
  | nil =>
    intro b
    exact ⟨b, rfl, Or.inl rfl, le_refl _, by intro x hx; cases hx⟩
  | cons a rest ih =>
    intro b
    by_cases hlt : b.mtime < a.mtime
    · obtain ⟨e, he, hmem, hle, hall⟩ := ih a
      refine ⟨e, ?_, ?_, ?_, ?_⟩
      · show pickLatest (some (if b.mtime < a.mtime then a else b)) rest = some e
        rw [if_pos hlt]
        exact he
      · rcases hmem with h | h
        · exact Or.inr (h ▸ List.mem_cons_self a rest)
        · exact Or.inr (List.mem_cons_of_mem a h)
      · exact le_trans (le_of_lt hlt) hle
      · intro x hx
        rcases List.mem_cons.mp hx with h | h
        · exact h ▸ hle
        · exact hall x h
    · obtain ⟨e, he, hmem, hle, hall⟩ := ih b
      refine ⟨e, ?_, ?_, ?_, ?_⟩
      · show pickLatest (some (if b.mtime < a.mtime then a else b)) rest = some e
        rw [if_neg hlt]
        exact he
      · rcases hmem with h | h
        · exact Or.inl h
        · exact Or.inr (List.mem_cons_of_mem a h)
      · exact hle
      · intro x hx
        rcases List.mem_cons.mp hx with h | h
        · subst h
          exact le_trans (le_of_not_lt hlt) hle
        · exact hall x h

/-- A selected entry belongs to the scanned list and has maximal `mtime`. -/
theorem pickLatest_spec :
    ∀ (l : List DirEntry) (e : DirEntry), pickLatest none l = some e →
      e ∈ l ∧ ∀ x ∈ l, x.mtime ≤ e.mtime := by
  intro l e h
  cases l with
  | nil => cases h
  | cons a rest =>
    obtain ⟨e2, he2, hmem, hle, hall⟩ := pickLatest_acc rest a
    have h2 : pickLatest (some a) rest = some e := h
    rw [he2] at h2
    injection h2 with h3
    subst h3
    constructor
    · rcases hmem with hh | hh
      · exact hh ▸ List.mem_cons_self a rest
      · exact List.mem_cons_of_mem a hh
    · intro x hx
      rcases List.mem_cons.mp hx with hh | hh
      · exact hh ▸ hle
      · exact hall x hh

/-- C8: `compressLatestFile` selects the single regular file directly under
the source directory with the greatest modification time (directories and
non-regular entries ignored), and on zero eligible files it signals
`NoEligibleFile` and writes nothing. -/
theorem compressLatestFile_correct :
    (∀ entries : List DirEntry, entries.filter (fun x => x.isRegularFile) = [] →
        compressLatestFile entries = (LatestResult.noEligibleFile, []))
    ∧ (∀ (entries : List DirEntry) (e : DirEntry),
        pickLatest none (entries.filter (fun x => x.isRegularFile)) = some e →
        e.isRegularFile = true ∧ e ∈ entries
        ∧ (∀ x ∈ entries, x.isRegularFile = true → x.mtime ≤ e.mtime)
        ∧ compressLatestFile entries = (LatestResult.ok e.name, [e.name])) := by
  constructor
  · intro entries h
    unfold compressLatestFile
    rw [h]
    rfl
  · intro entries e h
    obtain ⟨hmem, hall⟩ := pickLatest_spec _ e h
    have hmf := List.mem_filter.mp hmem
    refine ⟨by simpa using hmf.2, hmf.1, ?_, ?_⟩
    · intro x hx hreg
      exact hall x (List.mem_filter.mpr ⟨hx, by simpa using hreg⟩)
    · unfold compressLatestFile
      rw [h]

/-- The spec's example directory: `a.txt (mtime=1)`, `b.txt (mtime=5)` and
a subdirectory `c`. -/
def demoEntries : List DirEntry :=
  [⟨"a.txt", true, 1⟩, ⟨"b.txt", true, 5⟩, ⟨"c", false, 9⟩]

/-- Closed instance of `compressLatestFile_correct`: an empty directory
signals `NoEligibleFile` with no write; the spec's example directory
selects `b.txt`, ignoring the subdirectory. -/
theorem compressLatestFile_correct_witness :
    compressLatestFile [] = (LatestResult.noEligibleFile, [])
    ∧ compressLatestFile demoEntries = (LatestResult.ok "b.txt", ["b.txt"]) := by
  refine ⟨compressLatestFile_correct.1 [] rfl, ?_⟩
  exact (compressLatestFile_correct.2 demoEntries ⟨"b.txt", true, 5⟩ (by decide)).2.2.2

/-! ### Archiver (`compress_directory`) theorems -/

/-- C10 is not unconditional: even with a walk yielding no files (here a
nonexistent source path), a destination archive that cannot be created
lands in the `except` clause and `compress_directory` returns
`(False, str(e))` with no archive written. -/
theorem compress_directory_dest_failure :
    sourceWalkFiles none = []
    ∧ compress_directory (some "[Errno 28] No space left on device") none none =
        ((false, "[Errno 28] No space left on device"), []) :=
  ⟨rfl, rfl⟩

/-- C10 (amended): provided creating and closing the destination archive
succeed, `compress_directory` returns success whenever the directory walk
yields no files — including a nonexistent source path, on which `os.walk`
yields nothing, and an empty source directory — producing an archive with
zero members; archiver success does not imply the source exists or that
any file was archived. -/
theorem compress_directory_empty_walk :
    (∀ src : Option FsTree, sourceWalkFiles src = [] →
        compress_directory none none src = ((true, "Backup comprimido correctamente."), []))
    ∧ compress_directory none none none = ((true, "Backup comprimido correctamente."), [])
    ∧ compress_directory none none (some (.mk [] [])) =
        ((true, "Backup comprimido correctamente."), []) := by
  refine ⟨?_, rfl, ?_⟩
  · intro src h
    unfold compress_directory
    rw [h]
    rfl
  · simp [compress_directory, sourceWalkFiles, walkFiles, walkFilesList, compressLoop]

/-- A directory containing only (nested) empty subdirectories. -/
def emptyNestedTree : FsTree := .mk [] [("sub", .mk [] [("subsub", .mk [] [])])]

/-- Closed instance of `compress_directory_empty_walk`: a source whose walk
finds only empty nested subdirectories compresses successfully to an
archive with zero members. -/
theorem compress_directory_empty_walk_witness :
    compress_directory none none (some emptyNestedTree) =
      ((true, "Backup comprimido correctamente."), []) :=
  compress_directory_empty_walk.1 (some emptyNestedTree)
    (by simp [sourceWalkFiles, emptyNestedTree, walkFiles, walkFilesList])
